import Mathlib

/-!
Verification development for the proxy-provider subsystem of
`adapters/provider/provider.go` and the vmess outbound adapter.

The Go code is shallowly embedded: pure functions become Lean functions,
methods mutating a `ProxySetProvider` become explicit state-passing
functions on a `PState`, the filesystem cache and the Vehicle are
explicit inputs, and fallible operations return `Except`.
-/

namespace Clash

/-- An opaque `C.Proxy` capability; this subsystem only needs identity. -/
structure Proxy where
  pname : String
deriving DecidableEq, Repr

/-- One element of the `proxies` list field of the YAML document, modelled
by the outcome the external `outbound.ParseProxy` collaborator produces
for it (`ParseProxy` itself is outside this package). -/
inductive Entry where
  | valid (p : Proxy)
  | invalid (msg : String)
deriving DecidableEq, Repr

/-- Modelled from the spec: `ParseProxy` is the external collaborator
`(mapping) -> (Proxy, error)`; an entry is represented directly by its
parse outcome. -/
def ParseProxy : Entry → Except String Proxy
  | .valid p => .ok p
  | .invalid m => .error m

/-- Raw bytes of a provider document, abstracted by how `yaml.Unmarshal`
into `ProxySchema` sees them: either the unmarshal itself fails, or it
yields a `Proxies` field that is Go-`nil` (absent) or a list of entries.
A `nil`/empty byte buffer unmarshals to `.doc none`. -/
inductive Buf where
  | malformed (msg : String)
  | doc (proxiesField : Option (List Entry))
deriving DecidableEq, Repr

/-- Errors of `ProxySetProvider.parse`. -/
inductive ParseErr where
  | yamlErr (msg : String)
  | formatErr
  | entryErr (idx : Nat) (msg : String)
  | emptyErr
deriving DecidableEq, Repr

/-- The entry loop of `ProxySetProvider.parse`: hand each mapping to
`ParseProxy`; the first failing entry aborts the whole parse, wrapped
with its index (`"Proxy %d error"`). -/
def parseEntries : Nat → List Entry → Except ParseErr (List Proxy)
  | _, [] => .ok []
  | idx, e :: rest =>
    match ParseProxy e with
    | .error m => .error (.entryErr idx m)
    | .ok p =>
      match parseEntries (idx + 1) rest with
      | .error err => .error err
      | .ok ps => .ok (p :: ps)

/-- Embedding of `ProxySetProvider.parse` (provider.go lines 204-229):
unmarshal, reject a missing `proxies` field, parse each entry, reject an
empty result. -/
def parse (buf : Buf) : Except ParseErr (List Proxy) :=
  match buf with
  | .malformed m => .error (.yamlErr m)
  | .doc none => .error .formatErr
  | .doc (some entries) =>
    match parseEntries 0 entries with
    | .error e => .error e
    | .ok ps => if ps.length = 0 then .error .emptyErr else .ok ps

/-- Errors surfaced by `Initial` and `pull`. -/
inductive PErr where
  | fetchErr (msg : String)
  | parseErr (e : ParseErr)
  | writeErr (msg : String)
deriving DecidableEq, Repr

/-- The mutable state of a `ProxySetProvider` together with the local
cache file at `vehicle.Path()` that only this provider writes.
`hash` is the `[16]byte` md5 field (digests are abstracted to `Nat`),
`updatedAt` the `*time.Time` field (times are `Nat`, `none` = Go `nil`). -/
structure PState where
  hash : Nat
  proxies : List Proxy
  updatedAt : Option Nat
  cache : Option Buf
deriving DecidableEq, Repr

/-- State of a freshly constructed provider (`NewProxySetProvider`):
empty proxy slice, zero hash, nil `updatedAt`; the cache file is an
input of the construction site. -/
def newProxySetProvider (cache : Option Buf) : PState :=
  { hash := 0, proxies := [], updatedAt := none, cache := cache }

/-- Observable steps a `pull` performs, in order, used to state the
short-circuit (no reparse/republish) and write-then-publish ordering. -/
inductive Ev where
  | fetch
  | parseEv
  | writeCache
  | setHash
  | publish
deriving DecidableEq, Repr

/-- Embedding of `ProxySetProvider.pull` (provider.go lines 173-202).
`digest` abstracts `md5.Sum`; `readRes` is what `vehicle.Read()` returns
on this call; `writeErr` is the outcome of `ioutil.WriteFile`;
`now` is `time.Now()`. Returns the new state, the returned error, and
the trace of steps executed. -/
def pull (digest : Buf → Nat) (readRes : Except String Buf)
    (writeErr : Option String) (now : Nat) (s : PState) :
    PState × Except PErr Unit × List Ev :=
  match readRes with
  | .error m => (s, .error (.fetchErr m), [.fetch])
  | .ok buf =>
    let hash := digest buf
    if s.hash = hash then
      ({ s with updatedAt := some now }, .ok (), [.fetch])
    else
      match parse buf with
      | .error e => (s, .error (.parseErr e), [.fetch, .parseEv])
      | .ok proxies =>
        match writeErr with
        | some m => (s, .error (.writeErr m), [.fetch, .parseEv, .writeCache])
        | none =>
          ({ hash := hash, proxies := proxies, updatedAt := some now,
             cache := some buf },
           .ok (), [.fetch, .parseEv, .writeCache, .setHash, .publish])

/-- The external world as `Initial` observes it: the `os.Stat` outcome on
the cache path, the file's mod time, what `ioutil.ReadFile` yields
(`fileBuf` is whatever bytes came back — on failure Go leaves `buf`
nil/partial, so `fileBuf` is still consulted), and the results of the
first and second `vehicle.Read()` calls this execution may make.
`writeErr` is the `ioutil.WriteFile` outcome. -/
structure InitEnv where
  statOk : Bool
  modTime : Nat
  fileBuf : Buf
  fileErr : Option String
  vreadA : Except String Buf
  vreadB : Except String Buf
  writeErr : Option String
deriving Repr

/-- Embedding of the first read step of `Initial` (provider.go lines
115-123) with Go's scoping made explicit: `stat, err := os.Stat(...)`
declares a NEW `err` scoped to the whole if-statement, so the
`buf, err = ...` assignments in both branches hit that inner `err`;
the outer `err` declared by `var err error` is never reassigned.
Returns (buf, state after, the OUTER err, the vehicle read to use for a
later fallback). When a read used in shadowed position fails, Go leaves
`buf` as `nil`, which unmarshals like `.doc none`. -/
def initialFirstRead (env : InitEnv) (s : PState) :
    Buf × PState × Option PErr × Except String Buf :=
  if env.statOk then
    (env.fileBuf, { s with updatedAt := some env.modTime }, none, env.vreadA)
  else
    (match env.vreadA with
     | .ok b => b
     | .error _ => Buf.doc none,
     s, none, env.vreadB)

/-- Embedding of the parse-and-fallback step of `Initial` (provider.go
lines 129-136): `proxies, err := pp.parse(buf)`; on parse failure the
code runs `buf, err = pp.vehicle.Read()` WITHOUT re-parsing the fetched
bytes, so the Go `proxies` stays nil (`[]` here). Returns
(proxies, buf after, error to return). -/
def initialStep2 (buf0 : Buf) (fallbackRead : Except String Buf) :
    List Proxy × Buf × Option PErr :=
  match parse buf0 with
  | .ok ps => (ps, buf0, none)
  | .error _ =>
    match fallbackRead with
    | .ok b => ([], b, none)
    | .error m => ([], buf0, some (PErr.fetchErr m))

/-- Embedding of `ProxySetProvider.Initial` (provider.go lines 114-151).
After the first read step the code checks the outer `err` (always nil,
see `initialFirstRead`); then the parse-and-fallback step
(`initialStep2`); then `ioutil.WriteFile`, `pp.hash = md5.Sum(buf)`,
`pp.setProxies(proxies)`. -/
def Initial (digest : Buf → Nat) (env : InitEnv) (s : PState) :
    PState × Except PErr Unit :=
  match initialFirstRead env s with
  | (buf0, s1, outerErr, fallbackRead) =>
    match outerErr with
    | some e => (s1, .error e)
    | none =>
      match initialStep2 buf0 fallbackRead with
      | (proxies, buf1, fbErr) =>
        match fbErr with
        | some e => (s1, .error e)
        | none =>
          match env.writeErr with
          | some m => (s1, .error (.writeErr m))
          | none =>
            let s2 : PState :=
              { s1 with
                cache := some buf1
                hash := digest buf1
                proxies := proxies }
            (s2, .ok ())

/-- Embedding of `CompatibleProvider`: a fixed list and a name; the
health check collaborator is outside the claims. -/
structure CompatibleProvider where
  cname : String
  cproxies : List Proxy
deriving DecidableEq, Repr

/-- Embedding of `NewCompatibleProvider` (provider.go lines 308-322):
an empty list is rejected. -/
def NewCompatibleProvider (nm : String) (proxies : List Proxy) :
    Except String CompatibleProvider :=
  if proxies.length = 0 then .error "Provider need one proxy at least"
  else .ok { cname := nm, cproxies := proxies }

/-- Embedding of `CompatibleProvider.Initial`: returns nil, touches
nothing. -/
def CompatibleProvider.InitialOp (cp : CompatibleProvider) :
    CompatibleProvider × Option String :=
  (cp, none)

/-- Embedding of `CompatibleProvider.Reload`: returns nil, touches
nothing. -/
def CompatibleProvider.ReloadOp (cp : CompatibleProvider) :
    CompatibleProvider × Option String :=
  (cp, none)

/-- Embedding of `CompatibleProvider.Update`: returns nil, touches
nothing. -/
def CompatibleProvider.UpdateOp (cp : CompatibleProvider) :
    CompatibleProvider × Option String :=
  (cp, none)

/-- Embedding of `CompatibleProvider.Proxies`. -/
def CompatibleProvider.ProxiesOp (cp : CompatibleProvider) : List Proxy :=
  cp.cproxies

/-- The `C.AddrType` of a `Metadata`: the three kinds `parseVmessAddr`
recognises (`C.AtypIPv4`, `C.AtypIPv6`, `C.AtypDomainName`), and every
other value of the underlying integer collapsed into `.other`. -/
inductive AddrType where
  | ipv4
  | ipv6
  | domainName
  | other (code : Nat)
deriving DecidableEq, Repr

/-- The `C.NetWork` field values. -/
inductive Network where
  | tcp
  | udp
deriving DecidableEq, Repr

/-- The fields of `C.Metadata` that `parseVmessAddr` reads. `dstIP` and
`host` are byte lists (a Go nil slice / empty string is `[]`), `dstPort`
is the string the code feeds to `strconv.Atoi`. -/
structure Metadata where
  addrType : AddrType
  dstIP : List Nat
  host : List Nat
  dstPort : String
  netWork : Network
deriving DecidableEq, Repr

/-- Embedding of `vmess.DstAddr`; `AddrT` is the `byte` field `AddrType`
and `Addr` the byte slice (Go nil = `[]`). -/
structure DstAddr where
  UDP : Bool
  AddrT : Nat
  Addr : List Nat
  Port : Nat
deriving DecidableEq, Repr

/-- Value of `vmess.AtypIPv4` (component/vmess package, outside src/). -/
def vmessAtypIPv4 : Nat := 1

/-- Value of `vmess.AtypDomainName` (component/vmess package, outside
src/). -/
def vmessAtypDomainName : Nat := 2

/-- Value of `vmess.AtypIPv6` (component/vmess package, outside src/). -/
def vmessAtypIPv6 : Nat := 3

/-- Model of Go `net.IP.To4`: the 4-byte form for a 4-byte address or a
16-byte IPv4-mapped address, nil (`[]`) otherwise. -/
def ipTo4 (ip : List Nat) : List Nat :=
  if ip.length = 4 then ip
  else if ip.length = 16 ∧ ip.take 12 = [0, 0, 0, 0, 0, 0, 0, 0, 0, 0, 255, 255]
  then ip.drop 12
  else []

/-- Model of Go `net.IP.To16`: the 16-byte form of the address, nil
(`[]`) if it is neither 4 nor 16 bytes long. -/
def ipTo16 (ip : List Nat) : List Nat :=
  if ip.length = 4 then [0, 0, 0, 0, 0, 0, 0, 0, 0, 0, 255, 255] ++ ip
  else if ip.length = 16 then ip
  else []

/-- Go `copy` into a fresh zeroed buffer of length `n` (the effect of
`addr = make([]byte, n); copy(addr, src)`): the first `min n src.length`
bytes of `src`, zero-padded to length `n`. -/
def copyInto (n : Nat) (src : List Nat) : List Nat :=
  src.take n ++ List.replicate (n - src.length) 0

/-- Model of Go `strconv.Atoi` as `parseVmessAddr` uses it (the error is
discarded, so a string that fails to parse yields 0): an optional sign
followed by at least one digit. Overflow clamping is not modelled. -/
def goAtoi (s : String) : Int :=
  let core : List Char → Option Nat := fun cs =>
    if cs ≠ [] ∧ cs.all Char.isDigit then
      some (cs.foldl (fun acc c => acc * 10 + (c.toNat - 48)) 0)
    else none
  match s.toList with
  | '-' :: rest => match core rest with
    | some n => -(n : Int)
    | none => 0
  | '+' :: rest => match core rest with
    | some n => (n : Int)
    | none => 0
  | cs => match core cs with
    | some n => (n : Int)
    | none => 0

/-- Go conversion `uint(port)` of a 64-bit int: wrap modulo 2^64. -/
def goUint64 (i : Int) : Nat :=
  (i % (2 ^ 64 : Nat)).toNat

/-- Embedding of `parseVmessAddr` (vmess outbound adapter, lines
102-128): switch on the metadata address kind; an unrecognised kind
leaves `addrType` as the zero byte and `addr` nil. -/
def parseVmessAddr (metadata : Metadata) : DstAddr :=
  let addrPair : Nat × List Nat :=
    match metadata.addrType with
    | .ipv4 => (vmessAtypIPv4, copyInto 4 (ipTo4 metadata.dstIP))
    | .ipv6 => (vmessAtypIPv6, copyInto 16 (ipTo16 metadata.dstIP))
    | .domainName =>
      (vmessAtypDomainName, metadata.host.length % 256 :: metadata.host)
    | .other _ => (0, [])
  { UDP := metadata.netWork = Network.udp
    AddrT := addrPair.1
    Addr := addrPair.2
    Port := goUint64 (goAtoi metadata.dstPort) }

/-! Concrete fixtures used to evaluate the embedded operations. -/

/-- A concrete proxy entry named `a`. -/
def proxyA : Proxy := { pname := "a" }

/-- A concrete proxy entry named `b`. -/
def proxyB : Proxy := { pname := "b" }

/-- A document with one valid entry. -/
def goodBuf1 : Buf := .doc (some [.valid proxyA])

/-- A document with two valid entries. -/
def goodBuf2 : Buf := .doc (some [.valid proxyA, .valid proxyB])

/-- A document whose entry at index 1 fails `ParseProxy`. -/
def badEntryBuf : Buf := .doc (some [.valid proxyA, .invalid "bad"])

/-- A byte buffer `yaml.Unmarshal` rejects. -/
def corruptBuf : Buf := .malformed "corrupt"

/-- A concrete digest function standing in for `md5.Sum` in evaluations;
it never returns 0 (the zero value of a fresh provider's hash field) and
distinguishes all the fixture buffers. -/
def digest0 : Buf → Nat
  | .malformed _ => 1
  | .doc none => 2
  | .doc (some es) => 3 + es.length

/-- A freshly constructed provider whose cache file holds a corrupt
document. -/
def sFresh : PState := newProxySetProvider (some corruptBuf)

/-- Environment for `Initial`: the cache path exists and holds the
corrupt document; the Vehicle serves `goodBuf1`; the cache write
succeeds. -/
def envCorruptCache : InitEnv :=
  { statOk := true, modTime := 5, fileBuf := corruptBuf, fileErr := none,
    vreadA := .ok goodBuf1, vreadB := .ok goodBuf1, writeErr := none }

/-- Environment for `Initial`: the cache holds the corrupt document and
the Vehicle ALSO serves unparseable bytes. -/
def envCorruptBoth : InitEnv :=
  { statOk := true, modTime := 5, fileBuf := corruptBuf, fileErr := none,
    vreadA := .ok corruptBuf, vreadB := .ok corruptBuf, writeErr := none }

/-- Environment for `Initial`: the cache holds the document whose second
entry is invalid; the Vehicle serves `goodBuf1`. -/
def envBadEntryCache : InitEnv :=
  { statOk := true, modTime := 9, fileBuf := badEntryBuf, fileErr := none,
    vreadA := .ok goodBuf1, vreadB := .ok goodBuf1, writeErr := none }

/-- A provider state whose cache file holds the bad-entry document. -/
def sBadEntryCache : PState :=
  { hash := 0, proxies := [], updatedAt := none, cache := some badEntryBuf }

/-- A provider state that has already published `goodBuf1`. -/
def sPublished1 : PState :=
  { hash := digest0 goodBuf1, proxies := [proxyA], updatedAt := some 3,
    cache := some goodBuf1 }

/-- Environment for `Initial`: no cache file, and the first (shadowed)
`vehicle.Read()` fails; the second read serves `goodBuf1`. -/
def envNoCacheReadFail : InitEnv :=
  { statOk := false, modTime := 0, fileBuf := Buf.doc none,
    fileErr := none, vreadA := .error "boom", vreadB := .ok goodBuf1,
    writeErr := none }

/-- A metadata value whose address kind is unrecognised. -/
def mdOther : Metadata :=
  { addrType := .other 9, dstIP := [], host := [], dstPort := "443",
    netWork := .tcp }

/-! Helper lemmas. -/

/-- The outer `err` of `Initial` is still `nil` after the first read
step, whatever the stat/read outcomes: both branches assign the inner,
shadowed `err`. -/
theorem initialFirstRead_outerErr (env : InitEnv) (s : PState) :
    (initialFirstRead env s).2.2.1 = none := by
  by_cases h : env.statOk <;> simp [initialFirstRead, h]

/-- The parse-and-fallback step either reports no error or reports the
fallback read's fetch error. -/
theorem initialStep2_fbErr (buf : Buf) (fb : Except String Buf) :
    (initialStep2 buf fb).2.2 = none
    ∨ ∃ m, (initialStep2 buf fb).2.2 = some (PErr.fetchErr m) := by
  unfold initialStep2
  rcases h : parse buf with e | ps
  · rcases fb with m | b
    · exact Or.inr ⟨m, rfl⟩
    · exact Or.inl rfl
  · exact Or.inl rfl

/-- Parsing a document of entries that all pass `ParseProxy` yields
exactly those proxies in document order. -/
theorem parseEntries_all_valid (ps : List Proxy) :
    ∀ idx, parseEntries idx (ps.map Entry.valid) = .ok ps := by
  induction ps with
  | nil => intro idx; rfl
  | cons p rest ih => intro idx; simp [parseEntries, ParseProxy, ih]

/-! Claim theorems. -/

/-- Claim C5: every execution of `pull` in which the Vehicle fetch fails
or the fetched bytes fail to parse returns that error and leaves the
published state (`proxies`, `hash`, `updatedAt`, and the cache) exactly
as it was. -/
theorem pull_failure_preserves_state (digest : Buf → Nat)
    (readRes : Except String Buf) (w : Option String) (now : Nat)
    (s : PState) :
    (∀ m, readRes = .error m →
      pull digest readRes w now s = (s, .error (.fetchErr m), [.fetch]))
    ∧ (∀ b e, readRes = .ok b → s.hash ≠ digest b → parse b = .error e →
      pull digest readRes w now s =
        (s, .error (.parseErr e), [.fetch, .parseEv])) := by
  constructor
  · intro m h
    subst h
    rfl
  · intro b e hb hh hp
    subst hb
    simp [pull, hh, hp]

/-- Closed instance of `pull_failure_preserves_state`: a fetched
document with no `proxies` field leaves the concrete fresh state
untouched. -/
theorem pull_failure_preserves_state_witness :
    pull digest0 (.ok (Buf.doc none)) none 3 sFresh =
      (sFresh, .error (.parseErr .formatErr), [.fetch, .parseEv]) :=
  (pull_failure_preserves_state digest0 (.ok (Buf.doc none)) none 3
    sFresh).2 (Buf.doc none) .formatErr rfl (by decide) rfl

/-- Claim C7: pulling twice while the Vehicle serves bytes whose digest
equals the stored hash succeeds both times, sets `updatedAt` to the
current time of each call, and leaves `proxies` and `hash` untouched;
the trace `[.fetch]` shows no reparse and no republish happens. -/
theorem pull_unchanged_idempotent (digest : Buf → Nat) (b : Buf)
    (w1 w2 : Option String) (n1 n2 : Nat) (s : PState)
    (h : s.hash = digest b) :
    pull digest (.ok b) w1 n1 s =
      ({ s with updatedAt := some n1 }, .ok (), [.fetch])
    ∧ pull digest (.ok b) w2 n2 (pull digest (.ok b) w1 n1 s).1 =
      ({ s with updatedAt := some n2 }, .ok (), [.fetch]) := by
  have h1 : pull digest (.ok b) w1 n1 s =
      ({ s with updatedAt := some n1 }, .ok (), [.fetch]) := by
    simp [pull, h]
  refine ⟨h1, ?_⟩
  rw [h1]
  simp [pull, h]

/-- Closed instance of `pull_unchanged_idempotent` on the concrete
published state and the buffer it came from. -/
theorem pull_unchanged_idempotent_witness :
    pull digest0 (.ok goodBuf1) none 11 sPublished1 =
      ({ sPublished1 with updatedAt := some 11 }, .ok (), [.fetch])
    ∧ pull digest0 (.ok goodBuf1) none 12
        ((pull digest0 (.ok goodBuf1) none 11 sPublished1).1) =
      ({ sPublished1 with updatedAt := some 12 }, .ok (), [.fetch]) :=
  pull_unchanged_idempotent digest0 goodBuf1 none none 11 12 sPublished1
    (by decide)

/-- Claim C8: `NewCompatibleProvider` rejects an empty list and accepts
a non-empty one unchanged, and `Initial`, `Reload` and `Update` on a
`CompatibleProvider` are no-ops returning nil. -/
theorem compatibleProvider_contract (nm : String) (ps : List Proxy)
    (cp : CompatibleProvider) :
    (ps = [] → NewCompatibleProvider nm ps =
      .error "Provider need one proxy at least")
    ∧ (ps ≠ [] → NewCompatibleProvider nm ps =
      .ok { cname := nm, cproxies := ps })
    ∧ cp.InitialOp = (cp, none)
    ∧ cp.ReloadOp = (cp, none)
    ∧ cp.UpdateOp = (cp, none) := by
  refine ⟨?_, ?_, rfl, rfl, rfl⟩
  · intro h
    subst h
    rfl
  · intro h
    simp [NewCompatibleProvider, List.length_eq_zero, h]

/-- Closed instance of `compatibleProvider_contract` at an empty and a
one-element list. -/
theorem compatibleProvider_contract_witness :
    NewCompatibleProvider "x" [] =
      .error "Provider need one proxy at least"
    ∧ NewCompatibleProvider "x" [proxyA] =
      .ok { cname := "x", cproxies := [proxyA] } :=
  ⟨(compatibleProvider_contract "x" [] { cname := "x", cproxies := [] }).1
     rfl,
   (compatibleProvider_contract "x" [proxyA]
     { cname := "x", cproxies := [] }).2.1 (by decide)⟩

/-- Claim C9: for every metadata whose address kind is none of IPv4,
IPv6 or domain-name, `parseVmessAddr` returns a `DstAddr` whose address
type is the zero byte and whose address is nil, rather than an error. -/
theorem parseVmessAddr_unrecognized (md : Metadata) (c : Nat)
    (h : md.addrType = .other c) :
    (parseVmessAddr md).AddrT = 0 ∧ (parseVmessAddr md).Addr = [] := by
  simp [parseVmessAddr, h]

/-- Closed instance of `parseVmessAddr_unrecognized` at a concrete
metadata with address kind 9. -/
theorem parseVmessAddr_unrecognized_witness :
    (parseVmessAddr mdOther).AddrT = 0
    ∧ (parseVmessAddr mdOther).Addr = [] :=
  parseVmessAddr_unrecognized mdOther 9 rfl

/-- Claim C6: a `pull` that fetches bytes with a new digest that parse
successfully writes exactly those bytes to the cache before updating the
hash and before publishing (the trace order, and the write-failure case
where neither hash nor proxies change, witness the ordering); the
published proxies are the parsed entries in document order; and after
serving `B1` then `B2` with distinct digests, both valid, two pulls end
with `proxies` = `B2`'s entries, `hash` = digest `B2`, and the cache
holding `B2`. -/
theorem pull_change_detection_publish (digest : Buf → Nat)
    (b B1 B2 : Buf) (l l1 l2 ps : List Proxy) (m : String)
    (now n1 n2 : Nat) (s s0 : PState)
    (hh : s.hash ≠ digest b) (hp : parse b = .ok l)
    (hps : ps ≠ [])
    (hd : digest B1 ≠ digest B2)
    (h1 : parse B1 = .ok l1) (h2 : parse B2 = .ok l2) :
    pull digest (.ok b) none now s =
      ({ hash := digest b, proxies := l, updatedAt := some now,
         cache := some b }, .ok (),
       [.fetch, .parseEv, .writeCache, .setHash, .publish])
    ∧ pull digest (.ok b) (some m) now s =
      (s, .error (.writeErr m), [.fetch, .parseEv, .writeCache])
    ∧ parse (Buf.doc (some (ps.map Entry.valid))) = .ok ps
    ∧ ((pull digest (.ok B2) none n2
          ((pull digest (.ok B1) none n1 s0).1)).1 =
        { hash := digest B2, proxies := l2, updatedAt := some n2,
          cache := some B2 }) := by
  refine ⟨?_, ?_, ?_, ?_⟩
  · simp [pull, hh, hp]
  · simp [pull, hh, hp]
  · simp [parse, parseEntries_all_valid, hps]
  · by_cases h0 : s0.hash = digest B1
    · have hs1 : (pull digest (.ok B1) none n1 s0).1 =
          { s0 with updatedAt := some n1 } := by
        simp [pull, h0]
      rw [hs1]
      have hne : ({ s0 with updatedAt := some n1 } : PState).hash ≠
          digest B2 := by
        simpa [h0] using hd
      simp [pull, hne, h2]
    · have hs1 : (pull digest (.ok B1) none n1 s0).1 =
          { hash := digest B1, proxies := l1, updatedAt := some n1,
            cache := some B1 } := by
        simp [pull, h0, h1]
      rw [hs1]
      simp [pull, hd, h2]

/-- Closed instance of `pull_change_detection_publish` at the concrete
one-entry and two-entry documents. -/
theorem pull_change_detection_publish_witness :
    pull digest0 (.ok goodBuf1) none 21 sFresh =
      ({ hash := digest0 goodBuf1, proxies := [proxyA],
         updatedAt := some 21, cache := some goodBuf1 }, .ok (),
       [.fetch, .parseEv, .writeCache, .setHash, .publish])
    ∧ pull digest0 (.ok goodBuf1) (some "werr") 21 sFresh =
      (sFresh, .error (.writeErr "werr"), [.fetch, .parseEv, .writeCache])
    ∧ parse (Buf.doc (some ([proxyA].map Entry.valid))) = .ok [proxyA]
    ∧ ((pull digest0 (.ok goodBuf2) none 23
          ((pull digest0 (.ok goodBuf1) none 22 sFresh).1)).1 =
        { hash := digest0 goodBuf2, proxies := [proxyA, proxyB],
          updatedAt := some 23, cache := some goodBuf2 }) :=
  pull_change_detection_publish digest0 goodBuf1 goodBuf1 goodBuf2
    [proxyA] [proxyA] [proxyA, proxyB] [proxyA] "werr" 21 22 23
    sFresh sFresh (by decide) rfl (by decide) (by decide) rfl rfl

/-- Claim C10: in `Initial` the outer `err` checked right after the
first read step is always nil (the reads assign the shadowed inner
`err`), so a failed first read flows on — with a nil buffer when the
no-cache `vehicle.Read` failed — into the parse step, the result does
not depend on the `ReadFile` error at all, and `Initial` can only fail
via the fallback `vehicle.Read` or the cache `WriteFile`. -/
theorem initial_outer_err_shadowed (digest : Buf → Nat) (env : InitEnv)
    (s : PState) :
    (initialFirstRead env s).2.2.1 = none
    ∧ (∀ e2, Initial digest { env with fileErr := e2 } s =
        Initial digest env s)
    ∧ (∀ m, env.statOk = false → env.vreadA = .error m →
        (initialFirstRead env s).1 = Buf.doc none)
    ∧ ((Initial digest env s).2 = .ok ()
       ∨ (∃ m, (Initial digest env s).2 = .error (.fetchErr m))
       ∨ (∃ m, (Initial digest env s).2 = .error (.writeErr m))) := by
  refine ⟨initialFirstRead_outerErr env s, ?_, ?_, ?_⟩
  · intro e2
    cases env
    rfl
  · intro m hst hra
    simp [initialFirstRead, hst, hra]
  · unfold Initial
    rcases h0 : initialFirstRead env s with ⟨buf0, s1, oerr, fb⟩
    have hnone := initialFirstRead_outerErr env s
    rw [h0] at hnone
    simp only at hnone
    subst hnone
    rcases h1 : initialStep2 buf0 fb with ⟨pxs, buf1, fbErr⟩
    have hfb := initialStep2_fbErr buf0 fb
    rw [h1] at hfb
    simp only at hfb
    rcases hfb with h2 | ⟨m, h2⟩ <;> rw [h2] at h1
    · rcases hw : env.writeErr with _ | m
      · left
        simp [h1, hw]
      · right
        right
        exact ⟨m, by simp [h1, hw]⟩
    · right
      left
      exact ⟨m, by simp [h1]⟩

/-- Closed instance of `initial_outer_err_shadowed`: with no cache file
and a failing first `vehicle.Read`, the buffer that flows into the parse
step is nil. -/
theorem initial_outer_err_shadowed_witness :
    (initialFirstRead envNoCacheReadFail sFresh).1 = Buf.doc none :=
  (initial_outer_err_shadowed digest0 envNoCacheReadFail
    sFresh).2.2.1 "boom" rfl rfl

/-- Claim C1 (code bug): when the cached bytes fail to parse and the
fallback `vehicle.Read` succeeds, `Initial` does NOT parse the fetched
bytes: it returns success publishing the nil list left by the failed
local parse (never `goodBuf1`'s entries), while rewriting the cache and
the hash from the remote bytes; and when the remote bytes are also
unparseable, `Initial` still returns success instead of an error. -/
theorem initial_fallback_skips_reparse_bug :
    parse corruptBuf = .error (.yamlErr "corrupt")
    ∧ parse goodBuf1 = .ok [proxyA]
    ∧ Initial digest0 envCorruptCache sFresh =
        ({ hash := digest0 goodBuf1, proxies := [], updatedAt := some 5,
           cache := some goodBuf1 }, .ok ())
    ∧ Initial digest0 envCorruptBoth sFresh =
        ({ hash := digest0 corruptBuf, proxies := [],
           updatedAt := some 5, cache := some corruptBuf }, .ok ()) :=
  ⟨rfl, rfl, rfl, rfl⟩

/-- Claim C2 (code bug): `Initial` can return success with an empty
published list, and with the stored hash being the digest of bytes that
were never parsed (the remote bytes), on the local-parse-failure
fallback path. -/
theorem initial_success_empty_proxies_bug :
    (Initial digest0 envCorruptCache sFresh).2 = .ok ()
    ∧ (Initial digest0 envCorruptCache sFresh).1.proxies = []
    ∧ (Initial digest0 envCorruptCache sFresh).1.hash =
        digest0 goodBuf1 :=
  ⟨rfl, rfl, rfl⟩

/-- Claim C3 (code bug): on the fallback path of `Initial` the stored
hash changes although no newly parsed non-empty list is published (the
published list is empty). -/
theorem initial_hash_update_without_publish_bug :
    (Initial digest0 envCorruptCache sFresh).2 = .ok ()
    ∧ (Initial digest0 envCorruptCache sFresh).1.hash ≠ sFresh.hash
    ∧ (Initial digest0 envCorruptCache sFresh).1.proxies = [] :=
  ⟨rfl, by decide, rfl⟩

/-- Claim C4 (partly code bug): `parse` does fail with the format error
on a missing `proxies` field, the empty error on a present-but-empty
list, and an index-wrapping error on the first invalid entry with no
partial list, and a `pull` hitting such a document leaves state exactly
as it was — but an `Initial` whose cache holds such a document and whose
fallback read succeeds returns success and mutates the state. -/
theorem parse_all_or_nothing_initial_state_bug :
    parse (Buf.doc none) = .error .formatErr
    ∧ parse (Buf.doc (some [])) = .error .emptyErr
    ∧ parse badEntryBuf = .error (.entryErr 1 "bad")
    ∧ pull digest0 (.ok badEntryBuf) none 7 sPublished1 =
        (sPublished1, .error (.parseErr (.entryErr 1 "bad")),
         [.fetch, .parseEv])
    ∧ (Initial digest0 envBadEntryCache sBadEntryCache).2 = .ok ()
    ∧ (Initial digest0 envBadEntryCache sBadEntryCache).1 ≠
        sBadEntryCache :=
  ⟨rfl, rfl, rfl, rfl, rfl, by decide⟩

end Clash
